import Mathlib

/-!
Shallow embedding of the FLOW12 energy-diagram widgets (a React marketing
site with decorative hardware illustrations) and proofs about their
state-update logic.

Modelling conventions:
* JavaScript numbers are rationals (`ℚ`); integer-valued displays use `ℤ`.
* `Math.floor` is `Int.floor`, `Math.round` is `round` (both are
  `⌊x + 1/2⌋` for the inputs that occur here), `Math.sqrt` is `Rat.sqrt`
  (exact on the axis-aligned segment lengths this code produces),
  `Math.abs` is `|·|`.
* `Math.random()` samples are explicit parameters `r` with `0 ≤ r < 1`.
* The transcendental sample `Math.sin(((timeOfDay - 6) / 12) * Math.PI)`
  is abstracted as a parameter `hourFactor`/`sinVal`; every statement is
  proved for all values of that parameter.
* A JavaScript division whose denominator is 0 produces NaN (or an
  infinity immediately multiplied by 0, hence NaN); such a result is
  modelled as `none` in an `Option`-valued embedding.
-/

namespace Flow12

/-- A 2-D point, the `Position` interface of `right-angle-connection.tsx`. -/
structure Position where
  x : ℚ
  y : ℚ
  deriving DecidableEq, Repr

namespace StaticMonitorNode

/-- The monitor `type` prop: `"hub" | "meter" | "standard"`. -/
inductive MonitorType
  | hub
  | meter
  | standard
  deriving DecidableEq, Repr

/-- Props of `StaticMonitorNode` (defaults as in the source). -/
structure MonitorProps where
  posX : ℚ
  posY : ℚ
  scale : ℚ := 1
  monitorOn : Bool := false
  mtype : MonitorType := .standard
  deriving DecidableEq, Repr

/-- The `useState` fields of `StaticMonitorNode`. -/
structure MonitorState where
  chartData : List ℤ
  currentTime : String
  deriving DecidableEq, Repr

/-- Initial `chartData`: `useState<number[]>([50, 60, 55, 65, 70, 65, 75])`. -/
def chartDataInit : List ℤ := [50, 60, 55, 65, 70, 65, 75]

/-- The `useState` initializers of `StaticMonitorNode`.  `currentTime` is
initialized from `new Date().toLocaleTimeString()`; the ambient clock
reading at mount time is the `now` parameter. -/
def initState (_p : MonitorProps) (now : String) : MonitorState :=
  { chartData := chartDataInit, currentTime := now }

/-- The value appended by one 2-second data tick:
`Math.floor(Math.random() * 30) + 50`, with `r` the `Math.random()` sample. -/
def newChartValue (r : ℚ) : ℤ := ⌊r * 30⌋ + 50

/-- One 2-second data tick: `[...prev.slice(1), newValue]`. -/
def chartTick (r : ℚ) (prev : List ℤ) : List ℤ :=
  prev.drop 1 ++ [newChartValue r]

end StaticMonitorNode

namespace StaticSolarPanelNode

/-- The `orientation` prop: `"south" | "east" | "west" | "north"`. -/
inductive PanelOrientation
  | south
  | east
  | west
  | north
  deriving DecidableEq, Repr

/-- The `weather` state: `"sunny" | "cloudy" | "rainy" | "night"`. -/
inductive Weather
  | sunny
  | cloudy
  | rainy
  | night
  deriving DecidableEq, Repr

/-- Props of `StaticSolarPanelNode`, with the source's default values. -/
structure SolarProps where
  posX : ℚ
  posY : ℚ
  panelOn : Bool := true
  outputPower : ℤ := 0
  sunIntensity : ℚ := 70
  efficiency : ℚ := 21
  temperature : ℚ := 45
  tiltAngle : ℚ := 30
  orient : PanelOrientation := .south
  scale : ℚ := 1
  deriving DecidableEq, Repr

/-- The `useState` fields of `StaticSolarPanelNode`. -/
structure SolarState where
  panelOn : Bool
  outputPower : ℤ
  sunIntensity : ℚ
  efficiency : ℚ
  temperature : ℚ
  tiltAngle : ℚ
  orient : PanelOrientation
  timeOfDay : ℚ
  weather : Weather
  cellHighlight : List ℕ
  showControls : Bool
  deriving DecidableEq, Repr

/-- The `useState` initializers of `StaticSolarPanelNode`: every reading
starts from the corresponding prop; `timeOfDay` starts at 12, `weather`
at `"sunny"`, `cellHighlight` empty, `showControls` false. -/
def initState (p : SolarProps) : SolarState :=
  { panelOn := p.panelOn
    outputPower := p.outputPower
    sunIntensity := p.sunIntensity
    efficiency := p.efficiency
    temperature := p.temperature
    tiltAngle := p.tiltAngle
    orient := p.orient
    timeOfDay := 12
    weather := .sunny
    cellHighlight := []
    showControls := false }

/-- The orientation factor of the power-calculation effect. -/
def orientationFactor (o : PanelOrientation) (timeOfDay : ℚ) : ℚ :=
  if o = .east ∧ timeOfDay < 12 then 0.9
  else if o = .east ∧ 12 ≤ timeOfDay then 0.7
  else if o = .west ∧ timeOfDay < 12 then 0.7
  else if o = .west ∧ 12 ≤ timeOfDay then 0.9
  else if o = .north then 0.6
  else 1

/-- The sun factor of the power-calculation effect:
`sunFactor = sunIntensity / 100`, then `sunFactor *= Math.max(0, hourFactor)`,
then the weather adjustment (`night` overwrites it with 0).
`hourFactor` abstracts `Math.sin(((timeOfDay - 6) / 12) * Math.PI)`. -/
def sunFactor (sunIntensity hourFactor : ℚ) (w : Weather) : ℚ :=
  let sf := sunIntensity / 100
  let sf := sf * max 0 hourFactor
  if w = .cloudy then sf * 0.6
  else if w = .rainy then sf * 0.3
  else if w = .night then 0
  else sf

/-- The tilt factor: `tiltFactor = 1 - Math.abs(tiltAngle - optimalTilt) / 90` with
`optimalTilt = 35`. -/
def tiltFactor (tiltAngle : ℚ) : ℚ := 1 - |tiltAngle - 35| / 90

/-- The temperature factor: `tempFactor = 1 - Math.max(0, (temperature - 25) * 0.004)`. -/
def tempFactor (temperature : ℚ) : ℚ := 1 - max 0 ((temperature - 25) * 0.004)

/-- The final `calculatedPower`, with `maxPower = 350`. -/
def calculatedPower (sunIntensity hourFactor : ℚ) (w : Weather)
    (o : PanelOrientation) (timeOfDay tiltAngle temperature efficiency : ℚ) : ℚ :=
  350 * sunFactor sunIntensity hourFactor w * orientationFactor o timeOfDay *
    tiltFactor tiltAngle * tempFactor temperature * (efficiency / 100)

/-- The `outputPower` as set by the power-calculation effect: 0 when the panel
is off, otherwise `Math.round(calculatedPower)`. -/
def outputPower (panelOn : Bool) (sunIntensity hourFactor : ℚ) (w : Weather)
    (o : PanelOrientation) (timeOfDay tiltAngle temperature efficiency : ℚ) : ℤ :=
  if panelOn then
    round (calculatedPower sunIntensity hourFactor w o timeOfDay tiltAngle temperature efficiency)
  else 0

/-- In `togglePanel`: the functional update `setPanelOn((prev) => !prev)`. -/
def togglePanelNext (panelOn : Bool) : Bool := !panelOn

/-- In `togglePanel`: the argument `!panelOn` passed to `onPanelChange` when
that callback is present. -/
def togglePanelCallbackArg (panelOn : Bool) : Bool := !panelOn

/-- The update of `changeTilt`: `setTiltAngle(Math.max(0, Math.min(90, newTilt)))`. -/
def changeTilt (newTilt : ℚ) : ℚ := max 0 (min 90 newTilt)

/-- The new `sunIntensity` set by `changeTimeOfDay`:
`baseIntensity = Math.sin(((newTime - 6) / 12) * Math.PI) * 100` (the sine
sample abstracted as `sinVal`), then `Math.max(0, Math.min(100, baseIntensity))`. -/
def changeTimeOfDaySunIntensity (sinVal : ℚ) : ℚ :=
  let baseIntensity := sinVal * 100
  max 0 (min 100 baseIntensity)

/-- The weather scaling named by the claim: 0.6 for cloudy, 0.3 for rainy,
0 for night (stated from the claim's words, for comparison with the code). -/
def specWeatherScale (w : Weather) : ℚ :=
  match w with
  | .cloudy => 0.6
  | .rainy => 0.3
  | .night => 0
  | .sunny => 1

/-- The displayed output power as the claim states it (from the claim's
words, for comparison with the code): for `panelOn`,
`round(350 * sunFactor * orientationFactor * tiltFactor * tempFactor * (efficiency / 100))`
with `sunFactor = (sunIntensity / 100) * max(0, sin(((timeOfDay - 6) / 12) * pi))`
scaled by the weather, `tiltFactor = 1 - |tiltAngle - 35| / 90`,
`tempFactor = 1 - max(0, (temperature - 25) * 0.004)`; otherwise 0. -/
def specOutputPower (panelOn : Bool) (sunIntensity hourFactor : ℚ) (w : Weather)
    (o : PanelOrientation) (timeOfDay tiltAngle temperature efficiency : ℚ) : ℤ :=
  if panelOn then
    round (350 * (sunIntensity / 100 * max 0 hourFactor * specWeatherScale w) *
      orientationFactor o timeOfDay * (1 - |tiltAngle - 35| / 90) *
      (1 - max 0 ((temperature - 25) * 0.004)) * (efficiency / 100))
  else 0

end StaticSolarPanelNode

namespace StaticInverterNode

/-- The inverter `mode` prop: `"normal" | "pv" | "battery"`. -/
inductive InverterMode
  | normal
  | pv
  | battery
  deriving DecidableEq, Repr

/-- Props of `StaticInverterNode`, with the source's default values
(`initial*` names in the destructuring). -/
structure InverterProps where
  posX : ℚ
  posY : ℚ
  inverterOn : Bool
  gridConnected : Bool := false
  solarConnected : Bool := false
  batteryConnected : Bool := false
  loadPercentage : ℚ := 0
  efficiency : ℚ := 97
  inputVoltage : ℚ := 48
  outputVoltage : ℚ := 230
  frequency : ℚ := 50
  batteryLevel : ℚ := 80
  batteryCharging : Bool := false
  totalEnergyGenerated : ℚ := 23.5
  temperature : ℚ := 45
  fanSpeed : ℚ := 40
  mode : InverterMode := .normal
  scale : ℚ := 0.35
  showHousing : Bool := true
  deriving DecidableEq, Repr

/-- The `useState` fields of `StaticInverterNode` (reference cells and the
DOM container omitted). -/
structure InverterState where
  gridConnected : Bool
  solarConnected : Bool
  batteryConnected : Bool
  temperature : ℚ
  loadPercentage : ℚ
  efficiency : ℚ
  inputVoltage : ℚ
  outputVoltage : ℚ
  inputFrequency : ℚ
  outputFrequency : ℚ
  batteryLevel : ℚ
  batteryCharging : Bool
  totalEnergyGenerated : ℚ
  fanSpeed : ℚ
  mode : InverterMode
  selectedMode : ℕ
  faultCondition : Bool
  screenActive : Bool
  configMode : Bool
  displayOption : ℕ
  screenBrightness : ℚ
  bootupPhase : ℕ
  hovered : Bool
  showActivatePrompt : Bool
  humVolume : ℚ
  fanVolume : ℚ
  deriving DecidableEq, Repr

/-- The `useState` initializers of `StaticInverterNode`: every reading
starts from its `initial*` prop; `inputFrequency` starts at 0,
`outputFrequency` at `initialFrequency || 50` (JavaScript `||`: 50 when the
prop is 0), `selectedMode` at the index of `initialMode`,
`showActivatePrompt` at `!inverterOn`, both audio volumes at 0. -/
def initState (p : InverterProps) : InverterState :=
  { gridConnected := p.gridConnected
    solarConnected := p.solarConnected
    batteryConnected := p.batteryConnected
    temperature := p.temperature
    loadPercentage := p.loadPercentage
    efficiency := p.efficiency
    inputVoltage := p.inputVoltage
    outputVoltage := p.outputVoltage
    inputFrequency := 0
    outputFrequency := if p.frequency = 0 then 50 else p.frequency
    batteryLevel := p.batteryLevel
    batteryCharging := p.batteryCharging
    totalEnergyGenerated := p.totalEnergyGenerated
    fanSpeed := p.fanSpeed
    mode := p.mode
    selectedMode := if p.mode = .normal then 0 else if p.mode = .pv then 1 else 2
    faultCondition := false
    screenActive := false
    configMode := false
    displayOption := 0
    screenBrightness := 1
    bootupPhase := 0
    hovered := false
    showActivatePrompt := !p.inverterOn
    humVolume := 0
    fanVolume := 0 }

/-- In `toggleInverter`: `const newState = !inverterOn`. -/
def toggleInverterNewState (inverterOn : Bool) : Bool := !inverterOn

/-- In `toggleInverter`: the argument passed to `onInverterChange`, which is
exactly `newState`. -/
def toggleInverterCallbackArg (inverterOn : Bool) : Bool := !inverterOn

/-- One 1-second cooldown tick while the inverter is off:
`cooldownRate = (prev - 35) / 10; return Math.max(prev - cooldownRate, 35)`. -/
def cooldownStep (prev : ℚ) : ℚ :=
  let cooldownRate := (prev - 35) / 10
  max (prev - cooldownRate) 35

/-- The `setFanSpeed` branch of the 1-second heat-up tick.  `temperature`
is the pre-tick state read from the closure and `r` the `Math.random()`
sample (`Math.round(Math.random() * 5)` jitter). -/
def fanSpeedAfterTick (temperature r : ℚ) : ℚ :=
  if temperature > 65 then 100
  else if temperature > 55 then 80 + ((round (r * 5) : ℤ) : ℚ)
  else if temperature > 45 then 60 + ((round (r * 5) : ℤ) : ℚ)
  else if temperature > 40 then 40 + ((round (r * 5) : ℤ) : ℚ)
  else 20 + ((round (r * 5) : ℤ) : ℚ)

/-- The temperature band index named by the claim's fan-speed step
function (stated from the claim's words): 4 for `t > 65`, 3 for
`55 < t ≤ 65`, 2 for `45 < t ≤ 55`, 1 for `40 < t ≤ 45`, 0 otherwise. -/
def specFanBand (temperature : ℚ) : ℕ :=
  if temperature > 65 then 4
  else if temperature > 55 then 3
  else if temperature > 45 then 2
  else if temperature > 40 then 1
  else 0

/-- Lower end of the claimed fan-speed range of each temperature band. -/
def specBandLower (band : ℕ) : ℚ :=
  match band with
  | 0 => 20
  | 1 => 40
  | 2 => 60
  | 3 => 80
  | _ => 100

/-- Upper end of the claimed fan-speed range of each temperature band. -/
def specBandUpper (band : ℕ) : ℚ :=
  match band with
  | 0 => 25
  | 1 => 45
  | 2 => 65
  | 3 => 85
  | _ => 100

/-- The battery charge/discharge branch of the heat-up tick (entered when
`batteryConnected`); returns the new `(batteryCharging, batteryLevel)`.
Charging: `chargeRate = 0.01 * (1 - batteryLevel / 150)` and
`Math.min(prev + chargeRate, 100)`; discharging:
`dischargeRate = 0.02 * (loadPercentage / 50)` and
`Math.max(prev - dischargeRate, 0)`. -/
def batteryUpdate (solarConnected : Bool) (loadPercentage batteryLevel : ℚ) :
    Bool × ℚ :=
  if solarConnected ∧ loadPercentage < 80 then
    let chargeRate := 0.01 * (1 - batteryLevel / 150)
    (true, min (batteryLevel + chargeRate) 100)
  else if loadPercentage > 0 then
    let dischargeRate := 0.02 * (loadPercentage / 50)
    (false, max (batteryLevel - dischargeRate) 0)
  else
    (false, batteryLevel)

/-- The `src` attribute of an `<audio>` element: either a sound-file path
or the object URL of a generated silent blob. -/
inductive AudioSrc
  | file (path : String)
  | silentBlob
  deriving DecidableEq, Repr

/-- The audio-related component state touched by the four `onError`
handlers, together with the `faultCondition` flag (the only error
indicator the UI renders) and the console-warning log. -/
structure AudioHandlersState where
  humSrc : AudioSrc
  fanSrc : AudioSrc
  clickSrc : AudioSrc
  alarmSrc : AudioSrc
  humVolume : ℚ
  fanVolume : ℚ
  faultCondition : Bool
  consoleWarnings : List String
  deriving DecidableEq, Repr

/-- The `onError` handler of the inverter-hum element: replace `src` with the silent
blob, log a console warning, and `setHumVolume(0)`. -/
def onErrorHum (s : AudioHandlersState) : AudioHandlersState :=
  { s with
    humSrc := .silentBlob
    consoleWarnings :=
      s.consoleWarnings ++ ["Sound file not found: inverter-hum.mp3 - Audio features disabled"]
    humVolume := 0 }

/-- The `onError` handler of the fan-noise element: replace `src` with the silent
blob, log a console warning, and `setFanVolume(0)`. -/
def onErrorFan (s : AudioHandlersState) : AudioHandlersState :=
  { s with
    fanSrc := .silentBlob
    consoleWarnings :=
      s.consoleWarnings ++ ["Sound file not found: fan-noise.mp3 - Fan sound disabled"]
    fanVolume := 0 }

/-- The `onError` handler of the button-click element: replace `src` with the silent
blob and log a console warning. -/
def onErrorClick (s : AudioHandlersState) : AudioHandlersState :=
  { s with
    clickSrc := .silentBlob
    consoleWarnings :=
      s.consoleWarnings ++ ["Sound file not found: button-click.mp3 - Button click sound disabled"]
  }

/-- The `onError` handler of the alarm element: replace `src` with the silent blob and
log a console warning. -/
def onErrorAlarm (s : AudioHandlersState) : AudioHandlersState :=
  { s with
    alarmSrc := .silentBlob
    consoleWarnings :=
      s.consoleWarnings ++ ["Sound file not found: alarm.mp3 - Alarm sound disabled"] }

end StaticInverterNode

namespace EnergyFlowDiagram

/-- The click handler `toggleActivation` of `EnergyFlowDiagram`:
`setIsActive(!isActive)` and, when turning on, `setIsAnimating(true)`
(the delayed `setTimeout` reset is a later event, not part of the click
transition).  Returns the new `(isActive, isAnimating)` pair. -/
def toggleActivation (isActive isAnimating : Bool) : Bool × Bool :=
  (!isActive, if !isActive then true else isAnimating)

end EnergyFlowDiagram

namespace RightAngleConnection

/-- The `cornerPosition` prop: `"auto" | "horizontal-first" | "vertical-first"`
(default `"horizontal-first"`). -/
inductive CornerStrategy
  | auto
  | horizontalFirst
  | verticalFirst
  deriving DecidableEq, Repr

/-- The function `getCornerPosition` (the `from` prop is `src`, the `to` prop is `dst`). -/
def getCornerPosition (strat : CornerStrategy) (src dst : Position) : Position :=
  match strat with
  | .horizontalFirst => ⟨dst.x, src.y⟩
  | .verticalFirst => ⟨src.x, dst.y⟩
  | .auto =>
    let horizontalDistance := |dst.x - src.x|
    let verticalDistance := |dst.y - src.y|
    if horizontalDistance > verticalDistance then ⟨src.x, dst.y⟩
    else ⟨dst.x, src.y⟩

/-- One animated particle: `{ id: number; progress: number; speed: number }`. -/
structure Particle where
  id : ℕ
  progress : ℚ
  speed : ℚ
  deriving DecidableEq, Repr

/-- JavaScript remainder `x % y` for a positive modulus `y` (the result
keeps the sign of the dividend). -/
def jsMod (x y : ℚ) : ℚ :=
  if x < 0 then -((-x) - y * ⌊(-x) / y⌋) else x - y * ⌊x / y⌋

/-- The five initial particles created when the connection becomes active:
`id: i`, `progress: (i * 20) % 100`, `speed: 0.5 + Math.random() * 0.5`,
with `rand i` the `Math.random()` sample of particle `i`. -/
def initialParticles (rand : ℕ → ℚ) : List Particle :=
  (List.range 5).map fun i =>
    { id := i, progress := jsMod (i * 20) 100, speed := 0.5 + rand i * 0.5 }

/-- One 16 ms animation tick on a single particle:
`newProgress = (progress + speed) % 100`, everything else unchanged. -/
def tickParticle (p : Particle) : Particle :=
  { p with progress := jsMod (p.progress + p.speed) 100 }

/-- One 16 ms animation tick: `currentParticles.map(...)`. -/
def tickParticles (ps : List Particle) : List Particle := ps.map tickParticle

/-- The particle list while the connection is inactive: `setParticles([])`. -/
def inactiveParticles : List Particle := []

/-- The invariant claimed for the active particle list: exactly 5
particles, each with speed in `[0.5, 1)` and progress in `[0, 100)`. -/
def particleInvariant (ps : List Particle) : Prop :=
  ps.length = 5 ∧
    ∀ p ∈ ps, 1/2 ≤ p.speed ∧ p.speed < 1 ∧ 0 ≤ p.progress ∧ p.progress < 100

/-- The `segment1Length` of `getParticlePosition`:
`Math.sqrt(Math.pow(corner.x - from.x, 2) + Math.pow(corner.y - from.y, 2))`. -/
def segment1Length (strat : CornerStrategy) (src dst : Position) : ℚ :=
  let corner := getCornerPosition strat src dst
  Rat.sqrt ((corner.x - src.x) ^ 2 + (corner.y - src.y) ^ 2)

/-- The `segment2Length` of `getParticlePosition`:
`Math.sqrt(Math.pow(to.x - corner.x, 2) + Math.pow(to.y - corner.y, 2))`. -/
def segment2Length (strat : CornerStrategy) (src dst : Position) : ℚ :=
  let corner := getCornerPosition strat src dst
  Rat.sqrt ((dst.x - corner.x) ^ 2 + (dst.y - corner.y) ^ 2)

/-- The function `getParticlePosition`.  When the segment length being divided by is 0
the JavaScript division produces NaN (`0/0`) or an infinity that the next
line multiplies by 0 (so NaN again, since the corner then coincides with
the segment's endpoints); the NaN-valued result is modelled as `none`. -/
def getParticlePosition (strat : CornerStrategy) (src dst : Position)
    (progress : ℚ) : Option Position :=
  let corner := getCornerPosition strat src dst
  let seg1 := segment1Length strat src dst
  let seg2 := segment2Length strat src dst
  let totalPathLength := seg1 + seg2
  let progressAlongPath := (progress / 100) * totalPathLength
  if progressAlongPath ≤ seg1 then
    if seg1 = 0 then none
    else
      let segmentProgress := progressAlongPath / seg1
      some ⟨src.x + segmentProgress * (corner.x - src.x),
            src.y + segmentProgress * (corner.y - src.y)⟩
  else
    if seg2 = 0 then none
    else
      let segmentProgress := (progressAlongPath - seg1) / seg2
      some ⟨corner.x + segmentProgress * (dst.x - corner.x),
            corner.y + segmentProgress * (dst.y - corner.y)⟩

end RightAngleConnection

namespace TraditionalBulbNode

/-- The render-relevant output of `TraditionalBulbNode`: geometry and the
styling attributes that depend on the props. -/
structure BulbRender where
  left : ℚ
  top : ℚ
  width : ℚ
  height : ℚ
  outerGlowOpacity : ℚ
  glassFill : String
  glassStroke : String
  filamentStroke : String
  baseFill : String
  screwFill : String
  connectionFill : String
  innerGlowShown : Bool
  deriving DecidableEq, Repr

/-- The component `TraditionalBulbNode` as a pure function of its props: no `useState`,
no `useEffect`, no timers appear in the component. -/
def render (posX posY : ℚ) (bulbOn : Bool) (scale : ℚ) : BulbRender :=
  { left := posX
    top := posY
    width := 100 * scale
    height := 150 * scale
    outerGlowOpacity := if bulbOn then 0.4 else 0
    glassFill := if bulbOn then "rgba(255, 255, 255, 0.3)" else "rgba(255, 255, 255, 0.1)"
    glassStroke := if bulbOn then "#ffffff" else "#888888"
    filamentStroke := if bulbOn then "#ffcc00" else "#666666"
    baseFill := if bulbOn then "#e0e0e0" else "#888888"
    screwFill := if bulbOn then "#ffd700" else "#aa8800"
    connectionFill := if bulbOn then "#e0e0e0" else "#888888"
    innerGlowShown := bulbOn }

end TraditionalBulbNode


/-! ## Helper lemmas -/

/-- JS remainder of a nonnegative dividend by a positive modulus lies in
`[0, y)`. -/
theorem jsMod_nonneg_lt (x y : ℚ) (hx : 0 ≤ x) (hy : 0 < y) :
    0 ≤ RightAngleConnection.jsMod x y ∧ RightAngleConnection.jsMod x y < y := by
  unfold RightAngleConnection.jsMod
  rw [if_neg (not_lt.2 hx)]
  have hfr0 : 0 ≤ Int.fract (x / y) := Int.fract_nonneg _
  have hfr1 : Int.fract (x / y) < 1 := Int.fract_lt_one _
  have hkey : x - y * ⌊x / y⌋ = y * Int.fract (x / y) := by
    rw [Int.fract]
    field_simp
  rw [hkey]
  constructor
  · exact mul_nonneg hy.le hfr0
  · calc y * Int.fract (x / y) < y * 1 := mul_lt_mul_of_pos_left hfr1 hy
      _ = y := mul_one y

/-- The rounded jitter `Math.round(Math.random() * 5)` lies in `[0, 5]`. -/
theorem jitter_bounds (r : ℚ) (h0 : 0 ≤ r) (h1 : r < 1) :
    0 ≤ (round (r * 5) : ℤ) ∧ (round (r * 5) : ℤ) ≤ 5 := by
  rw [round_eq]
  constructor
  · refine Int.le_floor.2 ?_
    push_cast
    linarith
  · have h : ⌊r * 5 + 1 / 2⌋ < 6 := by
      refine Int.floor_lt.2 ?_
      push_cast
      linarith
    omega

/-- Iterating the Boolean negation used by the toggles negates the start
state once per click. -/
theorem togglePanelNext_iterate (n : ℕ) (b : Bool) :
    StaticSolarPanelNode.togglePanelNext^[n] b = if n % 2 = 1 then !b else b := by
  induction n generalizing b with
  | zero => simp
  | succ k ih =>
    rw [Function.iterate_succ_apply, ih (StaticSolarPanelNode.togglePanelNext b)]
    rcases Nat.mod_two_eq_zero_or_one k with h | h
    · have h2 : (k + 1) % 2 = 1 := by omega
      simp [h, h2, StaticSolarPanelNode.togglePanelNext]
    · have h2 : (k + 1) % 2 = 0 := by omega
      simp [h, h2, StaticSolarPanelNode.togglePanelNext]

/-! ## Claim theorems -/

/-- Claim C1: displayed simulated numbers stay within cosmetic bounds —
the inverter tick's battery update keeps `batteryLevel` in [0, 100]
(charging clamped above by 100, discharging below by 0); `changeTilt`
clamps `tiltAngle` to [0, 90]; `changeTimeOfDay` clamps `sunIntensity` to
[0, 100]; every element appended to `chartData` is an integer in [50, 79]
and the chart list always keeps exactly 7 elements. -/
theorem c1_cosmetic_bounds :
    (∀ (solarConnected : Bool) (loadPercentage batteryLevel : ℚ),
      0 ≤ loadPercentage → 0 ≤ batteryLevel → batteryLevel ≤ 100 →
      0 ≤ (StaticInverterNode.batteryUpdate solarConnected loadPercentage batteryLevel).2 ∧
        (StaticInverterNode.batteryUpdate solarConnected loadPercentage batteryLevel).2 ≤ 100) ∧
    (∀ newTilt : ℚ, 0 ≤ StaticSolarPanelNode.changeTilt newTilt ∧
      StaticSolarPanelNode.changeTilt newTilt ≤ 90) ∧
    (∀ sinVal : ℚ, 0 ≤ StaticSolarPanelNode.changeTimeOfDaySunIntensity sinVal ∧
      StaticSolarPanelNode.changeTimeOfDaySunIntensity sinVal ≤ 100) ∧
    (∀ r : ℚ, 0 ≤ r → r < 1 →
      50 ≤ StaticMonitorNode.newChartValue r ∧ StaticMonitorNode.newChartValue r ≤ 79) ∧
    (∀ (r : ℚ) (prev : List ℤ), prev.length = 7 →
      (StaticMonitorNode.chartTick r prev).length = 7) ∧
    StaticMonitorNode.chartDataInit.length = 7 := by
  refine ⟨?_, ?_, ?_, ?_, ?_, rfl⟩
  · intro sc load lvl hload hlvl0 hlvl100
    simp only [StaticInverterNode.batteryUpdate]
    split_ifs with h1 h2
    · constructor
      · have hch : (0 : ℚ) ≤ lvl + 0.01 * (1 - lvl / 150) := by nlinarith
        exact le_min hch (by norm_num)
      · exact min_le_right _ _
    · have hdr : (0 : ℚ) ≤ 0.02 * (load / 50) := by positivity
      constructor
      · exact le_max_right _ _
      · exact max_le (by linarith) (by norm_num)
    · exact ⟨hlvl0, hlvl100⟩
  · intro newTilt
    unfold StaticSolarPanelNode.changeTilt
    exact ⟨le_max_left _ _, max_le (by norm_num) (min_le_left _ _)⟩
  · intro sinVal
    unfold StaticSolarPanelNode.changeTimeOfDaySunIntensity
    exact ⟨le_max_left _ _, max_le (by norm_num) (min_le_left _ _)⟩
  · intro r h0 h1
    unfold StaticMonitorNode.newChartValue
    constructor
    · have : (0 : ℤ) ≤ ⌊r * 30⌋ := Int.le_floor.2 (by push_cast; linarith)
      omega
    · have : ⌊r * 30⌋ < 30 := Int.floor_lt.2 (by push_cast; linarith)
      omega
  · intro r prev hlen
    simp [StaticMonitorNode.chartTick, hlen]

/-- Witness for C1 at concrete inputs. -/
theorem c1_cosmetic_bounds_witness :
    (0 ≤ (StaticInverterNode.batteryUpdate true 50 80).2 ∧
      (StaticInverterNode.batteryUpdate true 50 80).2 ≤ 100) ∧
    (0 ≤ (StaticInverterNode.batteryUpdate false 50 80).2 ∧
      (StaticInverterNode.batteryUpdate false 50 80).2 ≤ 100) ∧
    (50 ≤ StaticMonitorNode.newChartValue (9/10) ∧
      StaticMonitorNode.newChartValue (9/10) ≤ 79) ∧
    (StaticMonitorNode.chartTick (9/10) StaticMonitorNode.chartDataInit).length = 7 := by
  obtain ⟨h1, h2, h3, h4, h5, h6⟩ := c1_cosmetic_bounds
  exact ⟨h1 true 50 80 (by norm_num) (by norm_num) (by norm_num),
    h1 false 50 80 (by norm_num) (by norm_num) (by norm_num),
    h4 (9/10) (by norm_num) (by norm_num),
    h5 (9/10) StaticMonitorNode.chartDataInit rfl⟩

/-- Claim C2: the toggle reflects the last click — `togglePanel`,
`toggleInverter` and `toggleActivation` each make the new on/off state the
negation of the state immediately before the click, the change callbacks
receive exactly the new state, and a sequence of clicks negates the
initial state once per click. -/
theorem c2_toggle_reflects_click :
    (∀ panelOn : Bool,
      StaticSolarPanelNode.togglePanelNext panelOn = !panelOn ∧
      StaticSolarPanelNode.togglePanelCallbackArg panelOn =
        StaticSolarPanelNode.togglePanelNext panelOn) ∧
    (∀ inverterOn : Bool,
      StaticInverterNode.toggleInverterNewState inverterOn = !inverterOn ∧
      StaticInverterNode.toggleInverterCallbackArg inverterOn =
        StaticInverterNode.toggleInverterNewState inverterOn) ∧
    (∀ isActive isAnimating : Bool,
      (EnergyFlowDiagram.toggleActivation isActive isAnimating).1 = !isActive) ∧
    (∀ (n : ℕ) (b : Bool),
      StaticSolarPanelNode.togglePanelNext^[n] b = if n % 2 = 1 then !b else b) :=
  ⟨fun _ => ⟨rfl, rfl⟩, fun _ => ⟨rfl, rfl⟩, fun _ _ => rfl, togglePanelNext_iterate⟩

/-- Claim C3: for `panelOn = true` the displayed `outputPower` equals the
rounded product formula stated by the claim (with the sine sample
`hourFactor` abstracted and quantified), and for `panelOn = false` it is
0. -/
theorem c3_output_power_formula :
    ∀ (panelOn : Bool) (sunIntensity hourFactor : ℚ)
      (w : StaticSolarPanelNode.Weather) (o : StaticSolarPanelNode.PanelOrientation)
      (timeOfDay tiltAngle temperature efficiency : ℚ),
      StaticSolarPanelNode.outputPower panelOn sunIntensity hourFactor w o
          timeOfDay tiltAngle temperature efficiency =
        StaticSolarPanelNode.specOutputPower panelOn sunIntensity hourFactor w o
          timeOfDay tiltAngle temperature efficiency ∧
      StaticSolarPanelNode.outputPower false sunIntensity hourFactor w o
          timeOfDay tiltAngle temperature efficiency = 0 := by
  intro panelOn si hf w o tod tilt temp eff
  refine ⟨?_, rfl⟩
  have hsf : StaticSolarPanelNode.sunFactor si hf w =
      si / 100 * max 0 hf * StaticSolarPanelNode.specWeatherScale w := by
    cases w
    · exact (mul_one _).symm
    · rfl
    · rfl
    · exact (mul_zero _).symm
  have hcalc : StaticSolarPanelNode.calculatedPower si hf w o tod tilt temp eff =
      350 * (si / 100 * max 0 hf * StaticSolarPanelNode.specWeatherScale w) *
        StaticSolarPanelNode.orientationFactor o tod * (1 - |tilt - 35| / 90) *
        (1 - max 0 ((temp - 25) * 0.004)) * (eff / 100) := by
    unfold StaticSolarPanelNode.calculatedPower StaticSolarPanelNode.tiltFactor
      StaticSolarPanelNode.tempFactor
    rw [hsf]
  cases panelOn
  · exact (show StaticSolarPanelNode.outputPower false si hf w o tod tilt temp eff = 0
        from rfl).trans
      (show (0 : ℤ) = StaticSolarPanelNode.specOutputPower false si hf w o tod tilt temp eff
        from rfl)
  · unfold StaticSolarPanelNode.outputPower StaticSolarPanelNode.specOutputPower
    rw [hcalc]

/-- Claim C4: each of the four audio `onError` handlers replaces the
element's source with the generated silent blob (and for the hum and fan
also zeroes the corresponding volume state), and no error is propagated or
shown in the UI (`faultCondition`, the only rendered error flag, is
untouched). -/
theorem c4_audio_silent_fallback :
    ∀ s : StaticInverterNode.AudioHandlersState,
      ((StaticInverterNode.onErrorHum s).humSrc = .silentBlob ∧
        (StaticInverterNode.onErrorHum s).humVolume = 0 ∧
        (StaticInverterNode.onErrorHum s).faultCondition = s.faultCondition) ∧
      ((StaticInverterNode.onErrorFan s).fanSrc = .silentBlob ∧
        (StaticInverterNode.onErrorFan s).fanVolume = 0 ∧
        (StaticInverterNode.onErrorFan s).faultCondition = s.faultCondition) ∧
      ((StaticInverterNode.onErrorClick s).clickSrc = .silentBlob ∧
        (StaticInverterNode.onErrorClick s).faultCondition = s.faultCondition) ∧
      ((StaticInverterNode.onErrorAlarm s).alarmSrc = .silentBlob ∧
        (StaticInverterNode.onErrorAlarm s).faultCondition = s.faultCondition) :=
  fun _ => ⟨⟨rfl, rfl, rfl⟩, ⟨rfl, rfl, rfl⟩, ⟨rfl, rfl⟩, ⟨rfl, rfl⟩⟩

/-- Counterexample to C5 as stated: `StaticMonitorNode`'s initial state is
not computed only from the props passed at mount and in-code defaults —
its `currentTime` field is initialized from `new Date().toLocaleTimeString()`,
so two mounts with identical props but different ambient clock readings
produce different initial states. -/
theorem c5_counterexample :
    StaticMonitorNode.initState { posX := 0, posY := 0 } "08:00:00" ≠
      StaticMonitorNode.initState { posX := 0, posY := 0 } "08:00:01" := by
  simp [StaticMonitorNode.initState]

/-- Claim C5 (amended): every widget's state immediately after a (re)mount
is the initial state computed only from the props passed at that mount,
in-code defaults and — for `StaticMonitorNode`'s `currentTime` — the
ambient wall-clock reading at mount; no value from a previously mounted
instance's state influences a fresh mount.  `StaticSolarPanelNode`
initializes all readings from its props/defaults, `StaticMonitorNode`
initializes `chartData` to the constant `[50, 60, 55, 65, 70, 65, 75]`
regardless of props, and `StaticInverterNode` initializes every reading
from its `initial*` props. -/
theorem c5_mount_resets_state :
    (∀ p : StaticSolarPanelNode.SolarProps,
      StaticSolarPanelNode.initState p =
        { panelOn := p.panelOn, outputPower := p.outputPower,
          sunIntensity := p.sunIntensity, efficiency := p.efficiency,
          temperature := p.temperature, tiltAngle := p.tiltAngle,
          orient := p.orient, timeOfDay := 12, weather := .sunny,
          cellHighlight := [], showControls := false }) ∧
    (∀ (p : StaticMonitorNode.MonitorProps) (now : String),
      StaticMonitorNode.initState p now =
        { chartData := [50, 60, 55, 65, 70, 65, 75], currentTime := now }) ∧
    (∀ (p q : StaticMonitorNode.MonitorProps) (now : String),
      StaticMonitorNode.initState p now = StaticMonitorNode.initState q now) ∧
    (∀ p : StaticInverterNode.InverterProps,
      StaticInverterNode.initState p =
        { gridConnected := p.gridConnected, solarConnected := p.solarConnected,
          batteryConnected := p.batteryConnected, temperature := p.temperature,
          loadPercentage := p.loadPercentage, efficiency := p.efficiency,
          inputVoltage := p.inputVoltage, outputVoltage := p.outputVoltage,
          inputFrequency := 0,
          outputFrequency := if p.frequency = 0 then 50 else p.frequency,
          batteryLevel := p.batteryLevel, batteryCharging := p.batteryCharging,
          totalEnergyGenerated := p.totalEnergyGenerated, fanSpeed := p.fanSpeed,
          mode := p.mode,
          selectedMode := if p.mode = .normal then 0 else if p.mode = .pv then 1 else 2,
          faultCondition := false, screenActive := false, configMode := false,
          displayOption := 0, screenBrightness := 1, bootupPhase := 0,
          hovered := false, showActivatePrompt := !p.inverterOn,
          humVolume := 0, fanVolume := 0 }) :=
  ⟨fun _ => rfl, fun _ _ => rfl, fun _ _ _ => rfl, fun _ => rfl⟩

/-- The temperature band index is at most 4. -/
theorem specFanBand_le_four (t : ℚ) : StaticInverterNode.specFanBand t ≤ 4 := by
  unfold StaticInverterNode.specFanBand
  split_ifs <;> norm_num

/-- The temperature band index is monotone in the temperature. -/
theorem specFanBand_mono {t t' : ℚ} (h : t ≤ t') :
    StaticInverterNode.specFanBand t ≤ StaticInverterNode.specFanBand t' := by
  unfold StaticInverterNode.specFanBand
  split_ifs
  all_goals try norm_num
  all_goals exfalso
  all_goals linarith

/-- The claimed fan-speed ranges of distinct bands do not overlap: the
upper end of a lower band is below the lower end of a higher band. -/
theorem specBand_ordered {i j : ℕ} (hj : j ≤ 4) (h : i < j) :
    StaticInverterNode.specBandUpper i < StaticInverterNode.specBandLower j := by
  have hi : i ≤ 3 := by omega
  interval_cases i <;> interval_cases j
  all_goals norm_num [StaticInverterNode.specBandUpper, StaticInverterNode.specBandLower]

/-- After a heat-up tick the fan speed lies in the claimed range of the
temperature's band. -/
theorem fanSpeed_in_band (t r : ℚ) (h0 : 0 ≤ r) (h1 : r < 1) :
    StaticInverterNode.specBandLower (StaticInverterNode.specFanBand t) ≤
      StaticInverterNode.fanSpeedAfterTick t r ∧
    StaticInverterNode.fanSpeedAfterTick t r ≤
      StaticInverterNode.specBandUpper (StaticInverterNode.specFanBand t) := by
  obtain ⟨j0, j5⟩ := jitter_bounds r h0 h1
  have j0q : (0 : ℚ) ≤ ((round (r * 5) : ℤ) : ℚ) := by exact_mod_cast j0
  have j5q : ((round (r * 5) : ℤ) : ℚ) ≤ 5 := by exact_mod_cast j5
  unfold StaticInverterNode.fanSpeedAfterTick StaticInverterNode.specFanBand
  split_ifs <;>
    constructor <;>
    simp only [StaticInverterNode.specBandLower, StaticInverterNode.specBandUpper] <;>
    linarith

/-- Claim C6: the inverter fan-speed curve is a monotone step function of
the (pre-tick) temperature with bounded jitter: exactly 100 above 65; in
[80, 85] on (55, 65]; in [60, 65] on (45, 55]; in [40, 45] on (40, 45];
in [20, 25] otherwise — hence always in [20, 100], and a higher
temperature band never gets a lower fan-speed band. -/
theorem c6_fan_speed_curve :
    ∀ t r : ℚ, 0 ≤ r → r < 1 →
      (65 < t → StaticInverterNode.fanSpeedAfterTick t r = 100) ∧
      (55 < t → t ≤ 65 →
        80 ≤ StaticInverterNode.fanSpeedAfterTick t r ∧
        StaticInverterNode.fanSpeedAfterTick t r ≤ 85) ∧
      (45 < t → t ≤ 55 →
        60 ≤ StaticInverterNode.fanSpeedAfterTick t r ∧
        StaticInverterNode.fanSpeedAfterTick t r ≤ 65) ∧
      (40 < t → t ≤ 45 →
        40 ≤ StaticInverterNode.fanSpeedAfterTick t r ∧
        StaticInverterNode.fanSpeedAfterTick t r ≤ 45) ∧
      (t ≤ 40 →
        20 ≤ StaticInverterNode.fanSpeedAfterTick t r ∧
        StaticInverterNode.fanSpeedAfterTick t r ≤ 25) ∧
      (20 ≤ StaticInverterNode.fanSpeedAfterTick t r ∧
        StaticInverterNode.fanSpeedAfterTick t r ≤ 100) ∧
      (∀ t' r' : ℚ, 0 ≤ r' → r' < 1 → t ≤ t' →
        StaticInverterNode.specFanBand t ≤ StaticInverterNode.specFanBand t' ∧
        (StaticInverterNode.specFanBand t < StaticInverterNode.specFanBand t' →
          StaticInverterNode.fanSpeedAfterTick t r <
            StaticInverterNode.fanSpeedAfterTick t' r')) := by
  intro t r h0 h1
  obtain ⟨j0, j5⟩ := jitter_bounds r h0 h1
  have j0q : (0 : ℚ) ≤ ((round (r * 5) : ℤ) : ℚ) := by exact_mod_cast j0
  have j5q : ((round (r * 5) : ℤ) : ℚ) ≤ 5 := by exact_mod_cast j5
  refine ⟨?_, ?_, ?_, ?_, ?_, ?_, ?_⟩
  · intro h
    unfold StaticInverterNode.fanSpeedAfterTick
    rw [if_pos h]
  · intro ha hb
    unfold StaticInverterNode.fanSpeedAfterTick
    rw [if_neg (by linarith), if_pos ha]
    constructor <;> linarith
  · intro ha hb
    unfold StaticInverterNode.fanSpeedAfterTick
    rw [if_neg (by linarith), if_neg (by linarith), if_pos ha]
    constructor <;> linarith
  · intro ha hb
    unfold StaticInverterNode.fanSpeedAfterTick
    rw [if_neg (by linarith), if_neg (by linarith), if_neg (by linarith), if_pos ha]
    constructor <;> linarith
  · intro ha
    unfold StaticInverterNode.fanSpeedAfterTick
    rw [if_neg (by linarith), if_neg (by linarith), if_neg (by linarith),
      if_neg (by linarith)]
    constructor <;> linarith
  · unfold StaticInverterNode.fanSpeedAfterTick
    split_ifs <;> constructor <;> linarith
  · intro t' r' h0' h1' htt'
    refine ⟨specFanBand_mono htt', fun hlt => ?_⟩
    obtain ⟨hl, hu⟩ := fanSpeed_in_band t r h0 h1
    obtain ⟨hl', hu'⟩ := fanSpeed_in_band t' r' h0' h1'
    have hsep := specBand_ordered (specFanBand_le_four t') hlt
    linarith

/-- Witness for C6 at concrete inputs. -/
theorem c6_fan_speed_curve_witness :
    StaticInverterNode.fanSpeedAfterTick 70 0 = 100 ∧
    (20 ≤ StaticInverterNode.fanSpeedAfterTick 50 (1/2) ∧
      StaticInverterNode.fanSpeedAfterTick 50 (1/2) ≤ 100) ∧
    (60 ≤ StaticInverterNode.fanSpeedAfterTick 50 (1/2) ∧
      StaticInverterNode.fanSpeedAfterTick 50 (1/2) ≤ 65) := by
  have h70 := c6_fan_speed_curve 70 0 (by norm_num) (by norm_num)
  have h50 := c6_fan_speed_curve 50 (1/2) (by norm_num) (by norm_num)
  exact ⟨h70.1 (by norm_num), h50.2.2.2.2.2.1,
    h50.2.2.1 (by norm_num) (by norm_num)⟩

/-- Claim C7: the inverter cooldown easing is monotone with fixed point
35 — each off-tick maps `t` to `max(t - (t - 35) / 10, 35)`, for every
starting temperature `t ≥ 35` the generated sequence is non-increasing and
never drops below 35, and for any starting temperature the value after one
tick is at least 35. -/
theorem c7_cooldown_easing :
    (∀ t : ℚ, StaticInverterNode.cooldownStep t = max (t - (t - 35) / 10) 35) ∧
    (∀ t : ℚ, 35 ≤ StaticInverterNode.cooldownStep t) ∧
    (∀ t : ℚ, 35 ≤ t → StaticInverterNode.cooldownStep t ≤ t) ∧
    (∀ (t : ℚ) (n : ℕ), 35 ≤ t →
      35 ≤ StaticInverterNode.cooldownStep^[n] t ∧
      StaticInverterNode.cooldownStep^[n + 1] t ≤
        StaticInverterNode.cooldownStep^[n] t) := by
  have hfix : ∀ t : ℚ, 35 ≤ StaticInverterNode.cooldownStep t := fun t =>
    le_max_right _ _
  have hdec : ∀ t : ℚ, 35 ≤ t → StaticInverterNode.cooldownStep t ≤ t := by
    intro t ht
    unfold StaticInverterNode.cooldownStep
    exact max_le (by linarith) ht
  have hlow : ∀ (t : ℚ) (n : ℕ), 35 ≤ t → 35 ≤ StaticInverterNode.cooldownStep^[n] t := by
    intro t n ht
    cases n with
    | zero => exact ht
    | succ m =>
      rw [Function.iterate_succ_apply']
      exact hfix _
  refine ⟨fun _ => rfl, hfix, hdec, fun t n ht => ⟨hlow t n ht, ?_⟩⟩
  rw [Function.iterate_succ_apply']
  exact hdec _ (hlow t n ht)

/-- Witness for C7 at concrete inputs. -/
theorem c7_cooldown_easing_witness :
    StaticInverterNode.cooldownStep 55 = max (55 - (55 - 35) / 10) 35 ∧
    StaticInverterNode.cooldownStep 55 ≤ 55 ∧
    35 ≤ StaticInverterNode.cooldownStep^[2] 55 ∧
    StaticInverterNode.cooldownStep^[3] 55 ≤ StaticInverterNode.cooldownStep^[2] 55 := by
  obtain ⟨h1, _h2, h3, h4⟩ := c7_cooldown_easing
  obtain ⟨ha, hb⟩ := h4 55 2 (by norm_num)
  exact ⟨h1 55, h3 55 (by norm_num), ha, hb⟩

/-- Claim C8: `getParticlePosition` divides by the two segment lengths
without a guard — when both segments have positive length, every
`progress` in [0, 100] yields a well-defined point on the two-segment
polyline from `src` via the corner to `dst`; when a segment has zero
length (e.g. `src.x = dst.x` under the default horizontal-first strategy,
making `src` equal the corner), the division `0/0` occurs at progress 0
and the result is not a number (modelled as `none`). -/
theorem c8_particle_position_guard :
    (∀ (strat : RightAngleConnection.CornerStrategy) (src dst : Position)
      (prog : ℚ),
      0 < RightAngleConnection.segment1Length strat src dst →
      0 < RightAngleConnection.segment2Length strat src dst →
      0 ≤ prog → prog ≤ 100 →
      ∃ p : Position,
        RightAngleConnection.getParticlePosition strat src dst prog = some p ∧
        ∃ s : ℚ, 0 ≤ s ∧ s ≤ 1 ∧
          ((p.x = src.x +
              s * ((RightAngleConnection.getCornerPosition strat src dst).x - src.x) ∧
            p.y = src.y +
              s * ((RightAngleConnection.getCornerPosition strat src dst).y - src.y)) ∨
           (p.x = (RightAngleConnection.getCornerPosition strat src dst).x +
              s * (dst.x - (RightAngleConnection.getCornerPosition strat src dst).x) ∧
            p.y = (RightAngleConnection.getCornerPosition strat src dst).y +
              s * (dst.y - (RightAngleConnection.getCornerPosition strat src dst).y)))) ∧
    RightAngleConnection.getParticlePosition .horizontalFirst ⟨5, 5⟩ ⟨5, 9⟩ 0 = none := by
  constructor
  · intro strat src dst prog h1 h2 hp0 hp100
    simp only [RightAngleConnection.getParticlePosition]
    set s1 := RightAngleConnection.segment1Length strat src dst with hs1
    set s2 := RightAngleConnection.segment2Length strat src dst with hs2
    have htot : (0 : ℚ) ≤ s1 + s2 := by linarith
    have hpap0 : 0 ≤ prog / 100 * (s1 + s2) :=
      mul_nonneg (div_nonneg hp0 (by norm_num)) htot
    have hpap100 : prog / 100 * (s1 + s2) ≤ s1 + s2 := by
      calc prog / 100 * (s1 + s2) ≤ 1 * (s1 + s2) :=
        mul_le_mul_of_nonneg_right (by linarith) htot
      _ = s1 + s2 := one_mul _
    by_cases hcase : prog / 100 * (s1 + s2) ≤ s1
    · rw [if_pos hcase, if_neg h1.ne']
      refine ⟨_, rfl, prog / 100 * (s1 + s2) / s1,
        div_nonneg hpap0 h1.le, (div_le_one h1).2 hcase, Or.inl ⟨rfl, rfl⟩⟩
    · rw [if_neg hcase, if_neg h2.ne']
      push_neg at hcase
      refine ⟨_, rfl, (prog / 100 * (s1 + s2) - s1) / s2,
        div_nonneg (by linarith) h2.le, ?_, Or.inr ⟨rfl, rfl⟩⟩
      rw [div_le_one h2]
      linarith
  · norm_num [RightAngleConnection.getParticlePosition,
      RightAngleConnection.segment1Length, RightAngleConnection.segment2Length,
      RightAngleConnection.getCornerPosition, Rat.sqrt]

/-- Witness for C8's guarded part at a concrete connection. -/
theorem c8_particle_position_guard_witness :
    ∃ p : Position,
      RightAngleConnection.getParticlePosition .horizontalFirst ⟨0, 0⟩ ⟨100, 50⟩ 50 =
        some p ∧
      ∃ s : ℚ, 0 ≤ s ∧ s ≤ 1 ∧
        ((p.x = (0 : ℚ) +
            s * ((RightAngleConnection.getCornerPosition .horizontalFirst ⟨0, 0⟩ ⟨100, 50⟩).x - 0) ∧
          p.y = (0 : ℚ) +
            s * ((RightAngleConnection.getCornerPosition .horizontalFirst ⟨0, 0⟩ ⟨100, 50⟩).y - 0)) ∨
         (p.x = (RightAngleConnection.getCornerPosition .horizontalFirst ⟨0, 0⟩ ⟨100, 50⟩).x +
            s * (100 - (RightAngleConnection.getCornerPosition .horizontalFirst ⟨0, 0⟩ ⟨100, 50⟩).x) ∧
          p.y = (RightAngleConnection.getCornerPosition .horizontalFirst ⟨0, 0⟩ ⟨100, 50⟩).y +
            s * (50 - (RightAngleConnection.getCornerPosition .horizontalFirst ⟨0, 0⟩ ⟨100, 50⟩).y))) :=
  c8_particle_position_guard.1 .horizontalFirst ⟨0, 0⟩ ⟨100, 50⟩ 50
    (by norm_num [RightAngleConnection.segment1Length,
      RightAngleConnection.getCornerPosition, Rat.sqrt])
    (by norm_num [RightAngleConnection.segment2Length,
      RightAngleConnection.getCornerPosition, Rat.sqrt])
    (by norm_num) (by norm_num)

/-- Claim C9: the particle list holds exactly 5 particles with speed in
[0.5, 1) and progress in [0, 100) whenever the connection is active, each
16 ms tick preserves the invariant (progress advances by the speed modulo
100, speed unchanged), and the list is empty while inactive. -/
theorem c9_particle_list_invariant :
    (∀ rand : ℕ → ℚ, (∀ i, 0 ≤ rand i ∧ rand i < 1) →
      RightAngleConnection.particleInvariant
        (RightAngleConnection.initialParticles rand)) ∧
    (∀ ps : List RightAngleConnection.Particle,
      RightAngleConnection.particleInvariant ps →
      RightAngleConnection.particleInvariant (RightAngleConnection.tickParticles ps)) ∧
    (∀ p : RightAngleConnection.Particle,
      (RightAngleConnection.tickParticle p).speed = p.speed ∧
      (RightAngleConnection.tickParticle p).progress =
        RightAngleConnection.jsMod (p.progress + p.speed) 100) ∧
    RightAngleConnection.inactiveParticles = [] := by
  refine ⟨?_, ?_, fun p => ⟨rfl, rfl⟩, rfl⟩
  · intro rand hr
    constructor
    · rfl
    · intro p hp
      simp only [RightAngleConnection.initialParticles, List.mem_map,
        List.mem_range] at hp
      obtain ⟨i, hi5, rfl⟩ := hp
      obtain ⟨h0, h1⟩ := hr i
      have hsp : rand i * 0.5 < 0.5 := by nlinarith
      have hsp0 : 0 ≤ rand i * 0.5 := by nlinarith
      have hprog := jsMod_nonneg_lt ((i : ℚ) * 20) 100 (by positivity) (by norm_num)
      exact ⟨by simpa using by linarith, by simpa using by linarith,
        hprog.1, hprog.2⟩
  · intro ps hps
    obtain ⟨hlen, hmem⟩ := hps
    constructor
    · simpa [RightAngleConnection.tickParticles] using hlen
    · intro p hp
      simp only [RightAngleConnection.tickParticles, List.mem_map] at hp
      obtain ⟨q, hq, rfl⟩ := hp
      obtain ⟨hs1, hs2, hq1, hq2⟩ := hmem q hq
      have hprog := jsMod_nonneg_lt (q.progress + q.speed) 100 (by linarith) (by norm_num)
      exact ⟨hs1, hs2, hprog.1, hprog.2⟩

/-- Witness for C9 at a concrete random seed. -/
theorem c9_particle_list_invariant_witness :
    RightAngleConnection.particleInvariant
      (RightAngleConnection.initialParticles fun _ => 1/2) ∧
    RightAngleConnection.particleInvariant
      (RightAngleConnection.tickParticles
        (RightAngleConnection.initialParticles fun _ => 1/2)) := by
  have h1 := c9_particle_list_invariant.1 (fun _ => 1/2) (fun _ => by norm_num)
  exact ⟨h1, c9_particle_list_invariant.2.1 _ h1⟩

/-- Claim C10: `TraditionalBulbNode` is a deterministic pure function of
its props — equal `position`, `bulbOn` and `scale` give identical output;
the inner glow ellipses render exactly when `bulbOn` is true, the outer
glow opacity is 0.4 when on and 0 otherwise, and the rendered width and
height are `100 * scale` and `150 * scale`. -/
theorem c10_bulb_deterministic :
    (∀ (px py : ℚ) (b : Bool) (s px2 py2 : ℚ) (b2 : Bool) (s2 : ℚ),
      px = px2 → py = py2 → b = b2 → s = s2 →
      TraditionalBulbNode.render px py b s = TraditionalBulbNode.render px2 py2 b2 s2) ∧
    (∀ px py s : ℚ,
      (TraditionalBulbNode.render px py true s).innerGlowShown = true ∧
      (TraditionalBulbNode.render px py false s).innerGlowShown = false) ∧
    (∀ px py s : ℚ,
      (TraditionalBulbNode.render px py true s).outerGlowOpacity = 0.4 ∧
      (TraditionalBulbNode.render px py false s).outerGlowOpacity = 0) ∧
    (∀ (px py s : ℚ) (b : Bool),
      (TraditionalBulbNode.render px py b s).width = 100 * s ∧
      (TraditionalBulbNode.render px py b s).height = 150 * s) := by
  refine ⟨?_, fun _ _ _ => ⟨rfl, rfl⟩, fun _ _ _ => ⟨rfl, rfl⟩, fun _ _ _ _ => ⟨rfl, rfl⟩⟩
  rintro px py b s px2 py2 b2 s2 rfl rfl rfl rfl
  rfl

/-- Witness for C10's determinism part at concrete props. -/
theorem c10_bulb_deterministic_witness :
    TraditionalBulbNode.render 10 20 true 2 = TraditionalBulbNode.render 10 20 true 2 :=
  c10_bulb_deterministic.1 10 20 true 2 10 20 true 2 rfl rfl rfl rfl

end Flow12
